import Mathlib

/-!
Verification of the like-toggle engine, batch like query, token ledger and
broadcast notifier of the Postways application, as a shallow embedding of
`apps/diary/views/api.py`, `apps/diary/serializers.py`,
`apps/diary/consumers.py` and `apps/diary/models.py`.
-/

namespace Postways

/-! ## Data model (`apps/diary/models.py`)

`Post` (lines 81-138): we keep the fields this development needs: the primary
key, the author reference and the `published` flag.  `Like` (lines 207-243):
user reference, post reference and the `created` timestamp
(`auto_now_add=True`); the `unique_like` constraint forbids two rows with the
same `(user, post)` pair.  Timestamps are modelled as natural numbers. -/

structure PostRow where
  id : Nat
  author : Nat
  published : Bool
  deriving Repr, DecidableEq

structure LikeRow where
  id : Nat
  user : Nat
  post : Nat
  created : Nat
  deriving Repr, DecidableEq

/-- The relational state the like endpoints touch: the `Post` and `Like`
tables plus the sequence supplying fresh `Like` primary keys. -/
structure DB where
  posts : List PostRow
  likes : List LikeRow
  nextLikeId : Nat
  deriving Repr, DecidableEq

/-- `Post.objects.get(pk=pid)` as used by `PrimaryKeyRelatedField`. -/
def findPost (db : DB) (pid : Nat) : Option PostRow :=
  db.posts.find? (fun p => p.id == pid)

/-- The rows of the `Like` table matching a `(user, post)` pair, i.e. the
queryset `Like.objects.filter(post=post, user=user)`. -/
def likesFor (db : DB) (userId pid : Nat) : List LikeRow :=
  db.likes.filter (fun l => l.post == pid && l.user == userId)

/-- `Like.objects.filter(post=post).count()` (api.py line 315). -/
def likeCount (db : DB) (pid : Nat) : Nat :=
  (db.likes.filter (fun l => l.post == pid)).length

/-! ## Like toggle input validation
(`LikeCreateDestroySerializer`, serializers.py lines 686-746)

The `post` field is a `PrimaryKeyRelatedField`: a missing field fails the
required check, an id with no matching `Post` row fails `to_internal_value`,
and `validate_post` (lines 710-725) rejects a post with `published = False`
with the message "Cannot like an unpublished post.". -/

inductive ValidationResult where
  | ok (post : PostRow)
  | fieldError (field : String) (msg : String)
  deriving Repr, DecidableEq

def invalidPkMessage (pid : Nat) : String :=
  "Invalid pk \"" ++ toString pid ++ "\" - object does not exist."

def validateLikeInput (db : DB) (input : Option Nat) : ValidationResult :=
  match input with
  | none => .fieldError "post" "This field is required."
  | some pid =>
    match findPost db pid with
    | none => .fieldError "post" (invalidPkMessage pid)
    | some p =>
      if p.published then .ok p
      else .fieldError "post" "Cannot like an unpublished post."

/-! ## Serializer field construction
(`LikeCreateDestroySerializer`, serializers.py lines 686-708)

`serializer.is_valid(raise_exception=True)` (api.py line 284) first builds
the serializer's field map: every name in `Meta.fields` must be a field
declared on the serializer class or a field/attribute of the model;
otherwise DRF raises `ImproperlyConfigured`, which is not an API exception
and therefore surfaces as an HTTP 500, before any per-field validation and
before the transaction opens. -/

/-- The field names of the `Like` model (models.py lines 207-243): the
implicit primary key and the three declared fields.  The timestamp field is
named `created` (line 227); the model has no `created_at` field, property
or annotation. -/
def likeModelFieldNames : List String := ["id", "user", "post", "created"]

/-- The fields declared on `LikeCreateDestroySerializer` itself
(serializers.py lines 697-704): `url`, `user` and `post`. -/
def likeSerializerDeclared : List String := ["url", "user", "post"]

/-- `Meta.fields` of `LikeCreateDestroySerializer` (serializers.py
line 708). -/
def likeSerializerMetaFields : List String :=
  ["url", "id", "created_at", "user", "post"]

/-- DRF `ModelSerializer` field construction: the first `Meta.fields` name
that is neither declared on the serializer nor a model field raises
`ImproperlyConfigured`; the offending name is returned as the error. -/
def buildSerializerFields (declared modelFields metaFields : List String) :
    Except String Unit :=
  match metaFields.find?
      (fun f => !(declared.contains f || modelFields.contains f)) with
  | some f => .error f
  | none => .ok ()

/-- DRF's `ImproperlyConfigured` message for an invalid `Meta.fields`
entry of the `Like` serializers. -/
def improperlyConfigured (f : String) : String :=
  "Field name `" ++ f ++ "` is not valid for model `Like`."

/-! ## Like toggle engine
(`LikeCreateDestroyAPIView.create`, api.py lines 271-319)

The serialized like record a 201 would carry (serializer `Meta.fields`):
primary key, creation timestamp, user reference and post reference (the
hyperlink fields are rendered from the same references).  The timestamp is
keyed `created_at` in the serializer and the endpoint's tests, while the
model column is `created`; `serializeLike` maps the row to that intended
record shape. -/

structure LikeRecord where
  id : Nat
  created_at : Nat
  user : Nat
  post : Nat
  deriving Repr, DecidableEq

def serializeLike (l : LikeRow) : LikeRecord :=
  { id := l.id, created_at := l.created, user := l.user, post := l.post }

/-- `serializer.save(user=user)` (api.py line 303): an `INSERT` into the
`Like` table.  It raises `IntegrityError` (modelled as `.error`) exactly when
the `unique_like` constraint is violated, i.e. when a row with the same
`(user, post)` pair is already committed. -/
def saveLike (db : DB) (userId pid now : Nat) :
    Except Unit (DB × LikeRow) :=
  if db.likes.any (fun l => l.post == pid && l.user == userId) then
    .error ()
  else
    let row : LikeRow :=
      { id := db.nextLikeId, user := userId, post := pid, created := now }
    .ok ({ db with likes := row :: db.likes, nextLikeId := db.nextLikeId + 1 },
         row)

inductive ToggleResult where
  | added (record : LikeRecord)
  | removed
  deriving Repr, DecidableEq

/-- The transactional body of `create` (api.py lines 289-315).

`interference` models the single racy window the code defends against: when
the `select_for_update()` read at line 291 finds no row (so nothing is
locked), a concurrent request may commit a `Like` row between that read and
our `INSERT`.  `interference = some r` injects that concurrently committed
row; `interference = none` is the uncontended execution.  When the read does
find a row, the row lock serializes the competitors and no interference is
possible, exactly as in the source.

* a locked existing row is deleted by primary key (`existing_like.delete()`);
* otherwise the insert is attempted; on `IntegrityError` the handler deletes
  every row of the pair (`filter(post=post, user=user).delete()`, line 311)
  and reports `removed` instead of surfacing the error. -/
def toggleCore (db : DB) (interference : Option LikeRow)
    (userId pid now : Nat) : DB × ToggleResult :=
  match db.likes.find? (fun l => l.post == pid && l.user == userId) with
  | some l =>
    ({ db with likes := db.likes.filter (fun x => x.id != l.id) }, .removed)
  | none =>
    let db1 : DB :=
      match interference with
      | some r => { db with likes := r :: db.likes }
      | none => db
    match saveLike db1 userId pid now with
    | .ok (db2, row) => (db2, .added (serializeLike row))
    | .error _ =>
      ({ db1 with
          likes := db1.likes.filter
            (fun l => !(l.post == pid && l.user == userId)) },
       .removed)

/-- HTTP-level outcomes of the toggle endpoint.  `serverError` is a 5xx
from an unhandled exception such as `ImproperlyConfigured`. -/
inductive HttpResponse where
  | created (body : LikeRecord)
  | noContent
  | badRequest (field : String) (msg : String)
  | unauthorized
  | serverError (msg : String)
  deriving Repr, DecidableEq

/-- `serializer.is_valid(raise_exception=True)` (api.py line 284): field
construction runs first and an invalid `Meta.fields` name escapes as
`ImproperlyConfigured` (`.error`); only if it succeeds do the required /
pk / published checks of `validateLikeInput` run. -/
def likeSerializerIsValid (db : DB) (input : Option Nat) :
    Except String ValidationResult :=
  match buildSerializerFields likeSerializerDeclared likeModelFieldNames
      likeSerializerMetaFields with
  | .error f => .error (improperlyConfigured f)
  | .ok _ => .ok (validateLikeInput db input)

/-- The full toggle endpoint: `IsAuthenticated` permission (anonymous
callers get 401 before the serializer is touched), then
`serializer.is_valid(raise_exception=True)` — whose field-construction step
raises out of the view as a 500 when `Meta.fields` is invalid, leaving the
database untouched — then the transactional toggle of api.py lines 289-315.
With this serializer's `Meta.fields`, field construction always fails on
`created_at`, so the validation and transaction branches are never reached
at runtime; they transcribe the code that follows the `is_valid` call. -/
def likeToggle (db : DB) (caller : Option Nat) (input : Option Nat)
    (interference : Option LikeRow) (now : Nat) : DB × HttpResponse :=
  match caller with
  | none => (db, .unauthorized)
  | some userId =>
    match likeSerializerIsValid db input with
    | .error msg => (db, .serverError msg)
    | .ok (.fieldError f m) => (db, .badRequest f m)
    | .ok (.ok p) =>
      let res := toggleCore db interference userId p.id now
      match res.2 with
      | .added r => (res.1, .created r)
      | .removed => (res.1, .noContent)

/-- `N` sequential, uncontended toggle calls by the same user on the same
post (§8 of the spec: "toggle idempotence under alternation"). -/
def likeToggleN (userId pid now : Nat) : Nat → DB → DB
  | 0, db => db
  | n + 1, db =>
    likeToggleN userId pid now n
      (likeToggle db (some userId) (some pid) none now).1

/-! ## Batch like query (`LikeBatchAPIView.get`, api.py lines 333-374)

The view reads `ids` from the query string (default `""`), returns `{}` when
it is empty, splits on commas, drops blank segments (`if id.strip()`), parses
each remaining segment with Python's `int(...)` and answers 400 when any
parse raises `ValueError`.  We model `str.strip` and `int` on ASCII input:
optional surrounding whitespace, an optional sign, then digits in which a
single underscore may separate two digits (the grammar `int` accepts). -/

def isPySpace (c : Char) : Bool :=
  c == ' ' || c == '\t' || c == '\n' || c == '\r' ||
    c == Char.ofNat 11 || c == Char.ofNat 12

/-- `ids_param.split(",")`, on the character list of the parameter: Python's
`str.split` with an explicit separator keeps empty segments. -/
def splitComma : List Char → List (List Char)
  | [] => [[]]
  | c :: rest =>
    if c == ',' then [] :: splitComma rest
    else
      match splitComma rest with
      | s :: ss => (c :: s) :: ss
      | [] => [[c]]

/-- `str.strip()` on a character list. -/
def stripChars (cs : List Char) : List Char :=
  ((cs.dropWhile isPySpace).reverse.dropWhile isPySpace).reverse

/-- Digit run with optional single underscores between digits, accumulating
the value; the run must be nonempty and must not start or end with an
underscore nor contain two in a row. -/
def digitsUndAux : Nat → List Char → Option Nat
  | acc, [] => some acc
  | acc, c :: rest =>
    if c.isDigit then digitsUndAux (acc * 10 + (c.toNat - 48)) rest
    else if c == '_' then
      match rest with
      | [] => none
      | d :: rest2 =>
        if d.isDigit then digitsUndAux (acc * 10 + (d.toNat - 48)) rest2
        else none
    else none

def digitsUnd : List Char → Option Nat
  | [] => none
  | c :: rest =>
    if c.isDigit then digitsUndAux (c.toNat - 48) rest else none

/-- Python's `int(s)` on ASCII input, as `Option`: `none` is `ValueError`. -/
def pyInt (cs : List Char) : Option Int :=
  match stripChars cs with
  | '+' :: rest => (digitsUnd rest).map (fun n => (n : Int))
  | '-' :: rest => (digitsUnd rest).map (fun n => -(n : Int))
  | stripped => (digitsUnd stripped).map (fun n => (n : Int))

/-- `[int(id.strip()) for id in ids_param.split(",") if id.strip()]`
(api.py line 350): `none` when the comprehension raises `ValueError`. -/
def parseIds (idsParam : String) : Option (List Int) :=
  ((splitComma idsParam.toList).filter (fun t => stripChars t ≠ [])).mapM pyInt

/-- The `liked` flag the view computes for a post it returns: `false` for an
anonymous caller, otherwise whether a `Like` row of the caller on that post
exists. -/
def likedFlag (db : DB) (caller : Option Nat) (pid : Nat) : Bool :=
  match caller with
  | none => false
  | some u => db.likes.any (fun l => l.user == u && l.post == pid)

/-- Responses of the batch view: 200 with the entry list (string post id,
like count, liked flag) or the 400 `{"error": "Invalid post IDs"}`. -/
inductive BatchResponse where
  | ok (entries : List (String × Nat × Bool))
  | badRequest
  deriving Repr, DecidableEq

def LikeBatch_get (db : DB) (caller : Option Nat) (idsParam : String) :
    BatchResponse :=
  if idsParam == "" then .ok []
  else
    match parseIds idsParam with
    | none => .badRequest
    | some postIds =>
      if postIds.isEmpty then .ok []
      else
        let posts :=
          db.posts.filter (fun p => postIds.contains ((p.id : Int)))
        let userLiked : List Nat :=
          match caller with
          | some u =>
            (db.likes.filter
              (fun l => l.user == u && postIds.contains ((l.post : Int)))).map
              (fun l => l.post)
          | none => []
        .ok (posts.map
          (fun p => (toString p.id, likeCount db p.id,
                     userLiked.contains p.id)))

/-! ## Token ledger (`rest_framework_simplejwt.token_blacklist` tables,
`blacklist_user_tokens` in api.py lines 65-84 and
`MyTokenRefreshSerializer.validate` in serializers.py lines 764-812)

`OutstandingToken` rows carry a primary key, the user, the token's `jti` and
its timestamps; a `BlacklistedToken` row is a one-to-one reference to an
`OutstandingToken` row, modelled as the referenced primary key. -/

structure OutstandingRec where
  id : Nat
  user : Nat
  jti : String
  created_at : Nat
  expires_at : Nat
  deriving Repr, DecidableEq

structure Ledger where
  outstanding : List OutstandingRec
  blacklisted : List Nat
  nextTokenId : Nat
  deriving Repr, DecidableEq

/-- One insert of `bulk_create(..., ignore_conflicts=True)`: the one-to-one
constraint on `BlacklistedToken.token` makes a second row for the same
outstanding id a conflict, which is skipped. -/
def insertId (acc : List Nat) (i : Nat) : List Nat :=
  if acc.contains i then acc else acc ++ [i]

/-- `blacklist_user_tokens(user)` (api.py lines 65-84): collect the
blacklisted ids belonging to the user, blacklist every outstanding token of
the user not among them, with `ignore_conflicts=True`. -/
def blacklist_user_tokens (led : Ledger) (user : Nat) : Ledger :=
  let blacklistedTokenIds :=
    led.blacklisted.filter
      (fun tid => led.outstanding.any (fun r => r.id == tid && r.user == user))
  let tokensToBlacklist :=
    led.outstanding.filter
      (fun r => r.user == user && !(blacklistedTokenIds.contains r.id))
  { led with
      blacklisted :=
        tokensToBlacklist.foldl (fun acc r => insertId acc r.id)
          led.blacklisted }

/-- A refresh token's payload: the claims the serializer reads and writes. -/
structure Token where
  user : Nat
  jti : String
  exp : Nat
  iat : Nat
  deriving Repr, DecidableEq

/-- `refresh.blacklist()` from `rest_framework_simplejwt.tokens` (the
library call at serializers.py line 791): `get_or_create` the outstanding
row for the token's `jti`, then `get_or_create` its blacklist row. -/
def tokenBlacklist (led : Ledger) (tok : Token) : Ledger :=
  match led.outstanding.find? (fun r => r.jti == tok.jti) with
  | some r =>
    if led.blacklisted.contains r.id then led
    else { led with blacklisted := led.blacklisted ++ [r.id] }
  | none =>
    let newRec : OutstandingRec :=
      { id := led.nextTokenId, user := tok.user, jti := tok.jti,
        created_at := tok.iat, expires_at := tok.exp }
    { led with
        outstanding := led.outstanding ++ [newRec],
        blacklisted :=
          if led.blacklisted.contains newRec.id then led.blacklisted
          else led.blacklisted ++ [newRec.id],
        nextTokenId := led.nextTokenId + 1 }

/-- Token issuance at login (`TokenObtainPairView`): the library records the
new refresh token in `OutstandingToken`. -/
def issueToken (led : Ledger) (user : Nat) (jti : String) (now exp : Nat) :
    Ledger :=
  { led with
      outstanding :=
        led.outstanding ++
          [{ id := led.nextTokenId, user := user, jti := jti,
             created_at := now, expires_at := exp }],
      nextTokenId := led.nextTokenId + 1 }

/-- What `MyTokenRefreshSerializer.validate` returns: a new access token for
the refresh token's user, plus the rotated refresh token when rotation is
enabled. -/
structure RefreshData where
  accessUser : Nat
  refresh : Option Token
  deriving Repr, DecidableEq

/-- `MyTokenRefreshSerializer.validate` (serializers.py lines 764-812),
given a valid refresh token `tok` and the `jti` freshly generated by
`set_jti()`: issue the access token; when `ROTATE_REFRESH_TOKENS`, first
blacklist the old token (when `BLACKLIST_AFTER_ROTATION`), then rewrite the
`jti`/`exp`/`iat` claims, return the rotated token, and create its
`OutstandingToken` row (lines 799-810). -/
def myTokenRefresh_validate (led : Ledger) (tok : Token)
    (rotateTokens blacklistAfterRotation : Bool)
    (newJti : String) (now newExp : Nat) : Ledger × RefreshData :=
  if rotateTokens then
    let led1 := if blacklistAfterRotation then tokenBlacklist led tok else led
    let newTok : Token :=
      { user := tok.user, jti := newJti, exp := newExp, iat := now }
    let led2 : Ledger :=
      { led1 with
          outstanding :=
            led1.outstanding ++
              [{ id := led1.nextTokenId, user := tok.user, jti := newJti,
                 created_at := now, expires_at := newExp }],
          nextTokenId := led1.nextTokenId + 1 }
    (led2, { accessUser := tok.user, refresh := some newTok })
  else
    (led, { accessUser := tok.user, refresh := none })

/-- The ledger-mutating operations of the application: token issuance,
`blacklist_user_tokens` (called from password change, password reset via
recovery, account deletion and the recovery request itself), and the
rotation step of the refresh endpoint. -/
inductive LedgerStep : Ledger → Ledger → Prop where
  | issue (led : Ledger) (user : Nat) (jti : String) (now exp : Nat) :
      LedgerStep led (issueToken led user jti now exp)
  | blacklistAll (led : Ledger) (user : Nat) :
      LedgerStep led (blacklist_user_tokens led user)
  | rotate (led : Ledger) (tok : Token) (rot bl : Bool) (newJti : String)
      (now newExp : Nat) :
      LedgerStep led (myTokenRefresh_validate led tok rot bl newJti now newExp).1

/-- The empty ledger, before any token was issued. -/
def initialLedger : Ledger := { outstanding := [], blacklisted := [], nextTokenId := 0 }

/-- Ledger states reachable from the empty ledger by the operations above. -/
def ReachableLedger (led : Ledger) : Prop :=
  Relation.ReflTransGen LedgerStep initialLedger led

/-- The bookkeeping invariant of §3 of the spec: every blacklist row
references an outstanding row. -/
def LedgerInv (led : Ledger) : Prop :=
  ∀ tid ∈ led.blacklisted, ∃ r ∈ led.outstanding, r.id = tid

/-! ## Broadcast notifier (`broadcast_like_update`, api.py lines 87-115, and
`LikeConsumer.like_message`, consumers.py lines 48-75) -/

/-- A WebSocket connection in the `"likes"` group: its scope user id, or
`none` for an anonymous connection (`getattr(self.scope["user"], "id",
None)`). -/
structure Conn where
  userId : Option Nat
  deriving Repr, DecidableEq

/-- The group message built by `broadcast_like_update`: stringified post id
and like count, raw triggering user id. -/
structure LikeEvent where
  post_id : String
  like_count : String
  user_id : Nat
  deriving Repr, DecidableEq

def broadcastEvent (postId userId count : Nat) : LikeEvent :=
  { post_id := toString postId, like_count := toString count,
    user_id := userId }

/-- `LikeConsumer.like_message` on one connection: the payload sent to the
client, or `none` when the connection is skipped because it belongs to the
triggering user. -/
def like_message_send (conn : Conn) (event : LikeEvent) :
    Option (String × String) :=
  match conn.userId with
  | none => some (event.post_id, event.like_count)
  | some c =>
    if c != event.user_id then some (event.post_id, event.like_count)
    else none

/-- `channel_layer.group_send` fan-out: the connections of the group that
actually receive a payload. -/
def deliveredTo (conns : List Conn) (event : LikeEvent) : List Conn :=
  conns.filter (fun c => (like_message_send c event).isSome)

/-! ## Concrete fixtures used by witness theorems -/

/-- A small database: post 1 published, post 2 unpublished; user 7 likes
posts 1 and 2, user 8 likes post 1. -/
def wDB : DB :=
  { posts := [⟨1, 9, true⟩, ⟨2, 9, false⟩],
    likes := [⟨100, 7, 1, 0⟩, ⟨101, 8, 1, 0⟩, ⟨102, 7, 2, 0⟩],
    nextLikeId := 200 }

/-- A small ledger: user 7 owns outstanding tokens 0 (`jti` "a") and 1
(`jti` "b", already blacklisted); user 8 owns token 2 (`jti` "c"). -/
def wLedger : Ledger :=
  { outstanding := [⟨0, 7, "a", 0, 10⟩, ⟨1, 7, "b", 0, 10⟩, ⟨2, 8, "c", 0, 10⟩],
    blacklisted := [1],
    nextTokenId := 3 }

/-! ## Lemmas and claim theorems: the toggle engine

The decisive fact: building the fields of `LikeCreateDestroySerializer`
fails, because `Meta.fields` (serializers.py line 708) names `created_at`
while the model field (models.py line 227) is `created`.  The exception
fires inside `is_valid()` on every request, before any validation and
before the transaction, so the endpoint answers 500 with the database
untouched — contradicting the view's own docstring (201/204), the
serializer's docstring (ValidationError) and the repository's tests
(`test_like_api.py` asserts 201, 204, 400 and a `created_at` key). -/

lemma buildLikeFields_error :
    buildSerializerFields likeSerializerDeclared likeModelFieldNames
      likeSerializerMetaFields = .error "created_at" := rfl

/-- Every request by an authenticated caller is answered 500 with the
`ImproperlyConfigured` message and leaves the database unchanged, whatever
the input and whatever the interference. -/
lemma likeToggle_500 (db : DB) (u : Nat) (input : Option Nat)
    (intf : Option LikeRow) (now : Nat) :
    likeToggle db (some u) input intf now =
      (db, .serverError (improperlyConfigured "created_at")) := rfl

/-- C1: refuted by the code as shipped (`code_bug`): in the claim's
contended scenario — validated published post, no row at the read, a
concurrent insert of the pair — the caller gets a 500 `ImproperlyConfigured`
raised during serializer field construction (the `created_at` entry of
`Meta.fields` is not a `Like` field), not 204; the conflicting row is not
deleted, and for no interference is the answer 201 or 204. -/
theorem toggle_race_recovery_bug (db : DB) (u pid now : Nat) (p : PostRow)
    (r : LikeRow)
    (hp : findPost db pid = some p) (hpub : p.published = true)
    (hno : likesFor db u pid = []) (hru : r.user = u) (hrp : r.post = pid) :
    likeToggle db (some u) (some pid) (some r) now =
      (db, .serverError (improperlyConfigured "created_at")) ∧
    buildSerializerFields likeSerializerDeclared likeModelFieldNames
      likeSerializerMetaFields = .error "created_at" ∧
    ∀ intf : Option LikeRow,
      (likeToggle db (some u) (some pid) intf now).2 ≠ .noContent ∧
      ∀ b, (likeToggle db (some u) (some pid) intf now).2 ≠ .created b := by
  refine ⟨likeToggle_500 db u (some pid) (some r) now,
    buildLikeFields_error, ?_⟩
  intro intf
  rw [likeToggle_500 db u (some pid) intf now]
  constructor
  · simp
  · intro b
    simp

theorem toggle_race_recovery_bug_witness :
    likeToggle ⟨[⟨1, 9, true⟩], [], 100⟩ (some 7) (some 1)
        (some ⟨55, 7, 1, 4⟩) 5 =
      (⟨[⟨1, 9, true⟩], [], 100⟩,
       .serverError (improperlyConfigured "created_at")) ∧
    buildSerializerFields likeSerializerDeclared likeModelFieldNames
      likeSerializerMetaFields = .error "created_at" ∧
    ∀ intf : Option LikeRow,
      (likeToggle ⟨[⟨1, 9, true⟩], [], 100⟩ (some 7) (some 1) intf 5).2 ≠
          .noContent ∧
      ∀ b, (likeToggle ⟨[⟨1, 9, true⟩], [], 100⟩ (some 7) (some 1) intf 5).2 ≠
          .created b :=
  toggle_race_recovery_bug ⟨[⟨1, 9, true⟩], [], 100⟩ 7 1 5 ⟨1, 9, true⟩
    ⟨55, 7, 1, 4⟩ rfl rfl rfl rfl rfl

/-- C2: refuted by the code as shipped (`code_bug`): every toggle request
500s inside `is_valid()` before the transaction, so `N` sequential toggles
leave the database exactly as it was — after an odd number of calls there is
still no Like row of the pair, against the claimed parity. -/
theorem toggle_alternation_bug (db : DB) (u pid now n : Nat) (p : PostRow)
    (hp : findPost db pid = some p) (hpub : p.published = true)
    (hstart : likesFor db u pid = []) :
    likeToggleN u pid now n db = db ∧
    likesFor (likeToggleN u pid now n db) u pid = [] := by
  have hfix : ∀ (m : Nat) (d : DB), likeToggleN u pid now m d = d := by
    intro m
    induction m with
    | zero =>
      intro d
      rfl
    | succ k ih =>
      intro d
      show likeToggleN u pid now k
        (likeToggle d (some u) (some pid) none now).1 = d
      rw [likeToggle_500 d u (some pid) none now]
      exact ih d
  exact ⟨hfix n db, by rw [hfix n db]; exact hstart⟩

theorem toggle_alternation_bug_witness :
    likeToggleN 7 1 5 3 ⟨[⟨1, 9, true⟩], [], 100⟩ =
      ⟨[⟨1, 9, true⟩], [], 100⟩ ∧
    likesFor (likeToggleN 7 1 5 3 ⟨[⟨1, 9, true⟩], [], 100⟩) 7 1 = [] :=
  toggle_alternation_bug ⟨[⟨1, 9, true⟩], [], 100⟩ 7 1 5 3 ⟨1, 9, true⟩
    rfl rfl rfl

/-- C3: refuted by the code as shipped (`code_bug`): with no existing row
the endpoint answers 500 and inserts nothing, and with an existing row it
answers 500 and the row survives — neither the 201 with the serialized
record nor the deleting 204 is ever produced. -/
theorem toggle_add_remove_bug (db : DB) (u pid now : Nat) (p : PostRow)
    (l0 : LikeRow)
    (hp : findPost db pid = some p) (hpub : p.published = true) :
    (likesFor db u pid = [] →
      likeToggle db (some u) (some pid) none now =
        (db, .serverError (improperlyConfigured "created_at"))) ∧
    (db.likes.find? (fun l => l.post == pid && l.user == u) = some l0 →
      likeToggle db (some u) (some pid) none now =
        (db, .serverError (improperlyConfigured "created_at")) ∧
      l0 ∈ (likeToggle db (some u) (some pid) none now).1.likes) := by
  refine ⟨fun _ => likeToggle_500 db u (some pid) none now,
    fun hex => ⟨likeToggle_500 db u (some pid) none now, ?_⟩⟩
  rw [likeToggle_500 db u (some pid) none now]
  exact List.mem_of_find?_eq_some hex

theorem toggle_add_remove_bug_witness :
    (likeToggle ⟨[⟨1, 9, true⟩], [], 100⟩ (some 7) (some 1) none 5 =
      (⟨[⟨1, 9, true⟩], [], 100⟩,
       .serverError (improperlyConfigured "created_at"))) ∧
    (likeToggle ⟨[⟨1, 9, true⟩], [⟨100, 7, 1, 5⟩], 101⟩ (some 7) (some 1)
        none 6 =
      (⟨[⟨1, 9, true⟩], [⟨100, 7, 1, 5⟩], 101⟩,
       .serverError (improperlyConfigured "created_at")) ∧
     (⟨100, 7, 1, 5⟩ : LikeRow) ∈
       (likeToggle ⟨[⟨1, 9, true⟩], [⟨100, 7, 1, 5⟩], 101⟩ (some 7) (some 1)
         none 6).1.likes) :=
  ⟨(toggle_add_remove_bug ⟨[⟨1, 9, true⟩], [], 100⟩ 7 1 5 ⟨1, 9, true⟩
      ⟨100, 7, 1, 5⟩ rfl rfl).1 rfl,
   (toggle_add_remove_bug ⟨[⟨1, 9, true⟩], [⟨100, 7, 1, 5⟩], 101⟩ 7 1 6
      ⟨1, 9, true⟩ ⟨100, 7, 1, 5⟩ rfl rfl).2 rfl⟩

/-- C4: refuted by the code as shipped (`code_bug`): a missing `post`
field, a nonexistent post id and an unpublished post are all answered 500
(`ImproperlyConfigured` fires during field construction, before the
required / pk / published checks can run), not the claimed field-keyed 400s
with their messages; the Like table is indeed left unchanged, but by the
crash rather than by validation. -/
theorem toggle_validation_rejects_bug (db : DB) (u now pid : Nat)
    (p : PostRow) (intf : Option LikeRow) :
    (likeToggle db (some u) none intf now =
      (db, .serverError (improperlyConfigured "created_at"))) ∧
    (findPost db pid = none →
      likeToggle db (some u) (some pid) intf now =
        (db, .serverError (improperlyConfigured "created_at"))) ∧
    (findPost db pid = some p → p.published = false →
      likeToggle db (some u) (some pid) intf now =
        (db, .serverError (improperlyConfigured "created_at"))) :=
  ⟨likeToggle_500 db u none intf now,
   fun _ => likeToggle_500 db u (some pid) intf now,
   fun _ _ => likeToggle_500 db u (some pid) intf now⟩

theorem toggle_validation_rejects_bug_witness :
    (likeToggle ⟨[⟨2, 9, false⟩], [⟨100, 7, 2, 0⟩], 101⟩ (some 7) none
        none 5 =
      (⟨[⟨2, 9, false⟩], [⟨100, 7, 2, 0⟩], 101⟩,
       .serverError (improperlyConfigured "created_at"))) ∧
    (likeToggle ⟨[⟨2, 9, false⟩], [⟨100, 7, 2, 0⟩], 101⟩ (some 7) (some 3)
        none 5 =
      (⟨[⟨2, 9, false⟩], [⟨100, 7, 2, 0⟩], 101⟩,
       .serverError (improperlyConfigured "created_at"))) ∧
    (likeToggle ⟨[⟨2, 9, false⟩], [⟨100, 7, 2, 0⟩], 101⟩ (some 7) (some 2)
        none 5 =
      (⟨[⟨2, 9, false⟩], [⟨100, 7, 2, 0⟩], 101⟩,
       .serverError (improperlyConfigured "created_at"))) :=
  ⟨(toggle_validation_rejects_bug ⟨[⟨2, 9, false⟩], [⟨100, 7, 2, 0⟩], 101⟩
      7 5 3 ⟨2, 9, false⟩ none).1,
   (toggle_validation_rejects_bug ⟨[⟨2, 9, false⟩], [⟨100, 7, 2, 0⟩], 101⟩
      7 5 3 ⟨2, 9, false⟩ none).2.1 rfl,
   (toggle_validation_rejects_bug ⟨[⟨2, 9, false⟩], [⟨100, 7, 2, 0⟩], 101⟩
      7 5 2 ⟨2, 9, false⟩ none).2.2 rfl rfl⟩

/-! ## Lemmas about the batch like query -/

lemma userLiked_flag {db : DB} {u pid : Nat} {ids : List Int}
    (hmem : ids.contains ((pid : Int)) = true) :
    ((db.likes.filter
        (fun l => l.user == u && ids.contains ((l.post : Int)))).map
        (fun l => l.post)).contains pid =
      db.likes.any (fun l => l.user == u && l.post == pid) := by
  rw [Bool.eq_iff_iff]
  simp only [List.elem_iff, List.mem_map, List.mem_filter, List.any_eq_true,
    Bool.and_eq_true, beq_iff_eq]
  constructor
  · rintro ⟨l, ⟨hl, hu, -⟩, hp2⟩
    exact ⟨l, hl, hu, hp2⟩
  · rintro ⟨l, hl, hu, hp2⟩
    refine ⟨l, ⟨hl, hu, ?_⟩, hp2⟩
    rw [hp2]
    simpa [List.elem_iff] using hmem

lemma likeBatch_empty_char (db : DB) (caller : Option Nat) (idsParam : String)
    (hres : LikeBatch_get db caller idsParam = .ok []) :
    ∃ es, LikeBatch_get db caller idsParam = .ok es ∧
      (∀ p ∈ db.posts, ([] : List Int).contains ((p.id : Int)) = true →
        (toString p.id, likeCount db p.id, likedFlag db caller p.id) ∈ es) ∧
      (∀ e ∈ es, ∃ p ∈ db.posts,
        ([] : List Int).contains ((p.id : Int)) = true ∧
        e = (toString p.id, likeCount db p.id, likedFlag db caller p.id)) ∧
      (caller = none → ∀ e ∈ es, e.2.2 = false) := by
  refine ⟨[], hres, ?_, ?_, ?_⟩
  · intro p hp hc
    simp at hc
  · intro e he
    simp at he
  · intro _ e he
    simp at he

lemma likeBatch_get_main (db : DB) (caller : Option Nat) (idsParam : String)
    (i0 : Int) (irest : List Int) (hemp : idsParam ≠ "")
    (hparse : parseIds idsParam = some (i0 :: irest)) :
    LikeBatch_get db caller idsParam =
      .ok ((db.posts.filter
          (fun (p : PostRow) => (i0 :: irest).contains ((p.id : Int)))).map
        (fun (p : PostRow) => (toString p.id, likeCount db p.id,
          (match caller with
           | some u =>
             (db.likes.filter (fun (l : LikeRow) => l.user == u &&
               (i0 :: irest).contains ((l.post : Int)))).map
               (fun (l : LikeRow) => l.post)
           | none => ([] : List Nat)).contains p.id))) := by
  unfold LikeBatch_get
  rw [if_neg (by simp [hemp])]
  rw [hparse]
  rfl

/-- Characterization of a 200 answer of the batch view: every existing post
whose id was requested contributes its entry, every entry comes from such a
post, and an anonymous caller sees `liked = false` everywhere. -/
lemma likeBatch_ok_char (db : DB) (caller : Option Nat) (idsParam : String)
    (ids : List Int) (hparse : parseIds idsParam = some ids) :
    ∃ es, LikeBatch_get db caller idsParam = .ok es ∧
      (∀ p ∈ db.posts, ids.contains ((p.id : Int)) = true →
        (toString p.id, likeCount db p.id, likedFlag db caller p.id) ∈ es) ∧
      (∀ e ∈ es, ∃ p ∈ db.posts, ids.contains ((p.id : Int)) = true ∧
        e = (toString p.id, likeCount db p.id, likedFlag db caller p.id)) ∧
      (caller = none → ∀ e ∈ es, e.2.2 = false) := by
  by_cases hemp : idsParam = ""
  · subst hemp
    have h0 : parseIds "" = some [] := by decide
    rw [h0] at hparse
    obtain rfl : ([] : List Int) = ids := Option.some.inj hparse
    exact likeBatch_empty_char db caller "" (by simp [LikeBatch_get])
  · rcases ids with _ | ⟨i0, irest⟩
    · exact likeBatch_empty_char db caller idsParam
        (by simp [LikeBatch_get, hemp, hparse])
    · have hres := likeBatch_get_main db caller idsParam i0 irest hemp hparse
      refine ⟨_, hres, ?_, ?_, ?_⟩
      · intro p hp hc
        refine List.mem_map.mpr ⟨p, List.mem_filter.mpr ⟨hp, hc⟩, ?_⟩
        cases caller with
        | none => rfl
        | some u =>
          show (toString p.id, likeCount db p.id,
              ((db.likes.filter (fun (l : LikeRow) => l.user == u &&
                (i0 :: irest).contains ((l.post : Int)))).map
                (fun (l : LikeRow) => l.post)).contains p.id) =
            (toString p.id, likeCount db p.id, likedFlag db (some u) p.id)
          rw [userLiked_flag hc]
          rfl
      · intro e he
        obtain ⟨p, hpf, rfl⟩ := List.mem_map.mp he
        obtain ⟨hp, hc⟩ := List.mem_filter.mp hpf
        refine ⟨p, hp, hc, ?_⟩
        cases caller with
        | none => rfl
        | some u =>
          show (toString p.id, likeCount db p.id,
              ((db.likes.filter (fun (l : LikeRow) => l.user == u &&
                (i0 :: irest).contains ((l.post : Int)))).map
                (fun (l : LikeRow) => l.post)).contains p.id) =
            (toString p.id, likeCount db p.id, likedFlag db (some u) p.id)
          rw [userLiked_flag hc]
          rfl
      · rintro rfl e he
        obtain ⟨p, hpf, rfl⟩ := List.mem_map.mp he
        rfl

/-! ## Claim theorems: the batch like query -/

/-- C5: the batch query answers 200 with the empty object for a missing or
empty `ids` parameter; when every non-blank comma-separated token parses as
an integer it answers 200 with exactly one entry per requested existing post
(string post id key, like count, liked flag, the flag `false` everywhere for
an anonymous caller) and silently omits nonexistent ids; when some token
fails to parse the whole request is answered with 400. -/
theorem batch_contract (db : DB) (caller : Option Nat) (idsParam : String) :
    (LikeBatch_get db caller "" = .ok []) ∧
    (∀ ids, parseIds idsParam = some ids →
      ∃ es, LikeBatch_get db caller idsParam = .ok es ∧
        (∀ p ∈ db.posts, ids.contains ((p.id : Int)) = true →
          (toString p.id, likeCount db p.id, likedFlag db caller p.id) ∈ es) ∧
        (∀ e ∈ es, ∃ p ∈ db.posts, ids.contains ((p.id : Int)) = true ∧
          e = (toString p.id, likeCount db p.id, likedFlag db caller p.id)) ∧
        (caller = none → ∀ e ∈ es, e.2.2 = false)) ∧
    (parseIds idsParam = none →
      LikeBatch_get db caller idsParam = .badRequest) := by
  refine ⟨by simp [LikeBatch_get],
    fun ids h => likeBatch_ok_char db caller idsParam ids h, ?_⟩
  intro hnone
  have hemp : idsParam ≠ "" := by
    intro h
    subst h
    rw [show parseIds "" = some [] from by decide] at hnone
    cases hnone
  simp [LikeBatch_get, hemp, hnone]

theorem batch_contract_witness :
    (LikeBatch_get wDB (some 7) "" = .ok []) ∧
    (∃ es, LikeBatch_get wDB (some 7) "1,2, 99" = .ok es ∧
      (∀ p ∈ wDB.posts, ([1, 2, 99] : List Int).contains ((p.id : Int)) = true →
        (toString p.id, likeCount wDB p.id, likedFlag wDB (some 7) p.id) ∈ es) ∧
      (∀ e ∈ es, ∃ p ∈ wDB.posts,
        ([1, 2, 99] : List Int).contains ((p.id : Int)) = true ∧
        e = (toString p.id, likeCount wDB p.id, likedFlag wDB (some 7) p.id)) ∧
      ((some 7 : Option Nat) = none → ∀ e ∈ es, e.2.2 = false)) ∧
    (LikeBatch_get wDB (some 7) "1,x" = .badRequest) :=
  ⟨(batch_contract wDB (some 7) "1,2, 99").1,
   (batch_contract wDB (some 7) "1,2, 99").2.1 [1, 2, 99] (by decide),
   (batch_contract wDB (some 7) "1,x").2.2 (by decide)⟩

/-- C10: the batch query does not filter on the publication flag: an
existing but unpublished post whose id is requested still gets its entry,
with its like count and the caller's liked flag. -/
theorem batch_includes_unpublished (db : DB) (caller : Option Nat)
    (idsParam : String) (ids : List Int) (p : PostRow)
    (hparse : parseIds idsParam = some ids) (hp : p ∈ db.posts)
    (hunpub : p.published = false)
    (hmem : ids.contains ((p.id : Int)) = true) :
    ∃ es, LikeBatch_get db caller idsParam = .ok es ∧
      (toString p.id, likeCount db p.id, likedFlag db caller p.id) ∈ es := by
  obtain ⟨es, hres, hfwd, -, -⟩ :=
    likeBatch_ok_char db caller idsParam ids hparse
  exact ⟨es, hres, hfwd p hp hmem⟩

theorem batch_includes_unpublished_witness :
    ∃ es, LikeBatch_get wDB (some 7) "1,2" = .ok es ∧
      (toString (2 : Nat), likeCount wDB 2, likedFlag wDB (some 7) 2) ∈ es :=
  batch_includes_unpublished wDB (some 7) "1,2" [1, 2] ⟨2, 9, false⟩
    (by decide) (by decide) rfl (by decide)

/-! ## Lemmas about the token ledger -/

lemma mem_insertId_of_mem {acc : List Nat} {a i : Nat} (h : a ∈ acc) :
    a ∈ insertId acc i := by
  unfold insertId
  split
  · exact h
  · exact List.mem_append_left _ h

lemma self_mem_insertId (acc : List Nat) (i : Nat) : i ∈ insertId acc i := by
  unfold insertId
  split
  · exact List.elem_iff.mp (by assumption)
  · exact List.mem_append_right _ (by simp)

lemma mem_of_mem_insertId {acc : List Nat} {a i : Nat}
    (h : a ∈ insertId acc i) : a ∈ acc ∨ a = i := by
  unfold insertId at h
  split at h
  · exact Or.inl h
  · rcases List.mem_append.mp h with h2 | h2
    · exact Or.inl h2
    · simp at h2
      exact Or.inr h2

lemma nodup_insertId {acc : List Nat} {i : Nat} (h : acc.Nodup) :
    (insertId acc i).Nodup := by
  unfold insertId
  by_cases hc : i ∈ acc
  · rw [if_pos (List.elem_iff.mpr hc)]
    exact h
  · rw [if_neg (fun hcc => hc (List.elem_iff.mp hcc))]
    refine List.Nodup.append h (by simp) ?_
    intro a ha hb
    simp at hb
    subst hb
    exact hc ha

lemma mem_foldl_insertId_of_mem {xs : List OutstandingRec} {acc : List Nat}
    {a : Nat} (h : a ∈ acc) :
    a ∈ xs.foldl (fun acc r => insertId acc r.id) acc := by
  induction xs generalizing acc with
  | nil => simpa using h
  | cons x t ih => exact ih (mem_insertId_of_mem h)

lemma mem_foldl_insertId_of_mem_list {xs : List OutstandingRec}
    {acc : List Nat} {r : OutstandingRec} (h : r ∈ xs) :
    r.id ∈ xs.foldl (fun acc r => insertId acc r.id) acc := by
  induction xs generalizing acc with
  | nil => simp at h
  | cons x t ih =>
    rcases List.mem_cons.mp h with rfl | h2
    · show r.id ∈ t.foldl (fun acc r => insertId acc r.id) (insertId acc r.id)
      exact mem_foldl_insertId_of_mem (self_mem_insertId acc r.id)
    · exact ih h2

lemma mem_of_mem_foldl_insertId {xs : List OutstandingRec} {acc : List Nat}
    {a : Nat} (h : a ∈ xs.foldl (fun acc r => insertId acc r.id) acc) :
    a ∈ acc ∨ ∃ r ∈ xs, r.id = a := by
  induction xs generalizing acc with
  | nil => exact Or.inl (by simpa using h)
  | cons x t ih =>
    rcases ih h with h1 | ⟨r, hr, hra⟩
    · rcases mem_of_mem_insertId h1 with h2 | h2
      · exact Or.inl h2
      · exact Or.inr ⟨x, by simp, h2.symm⟩
    · exact Or.inr ⟨r, List.mem_cons_of_mem _ hr, hra⟩

lemma nodup_foldl_insertId {xs : List OutstandingRec} {acc : List Nat}
    (h : acc.Nodup) :
    (xs.foldl (fun acc r => insertId acc r.id) acc).Nodup := by
  induction xs generalizing acc with
  | nil => simpa using h
  | cons x t ih => exact ih (nodup_insertId h)

lemma blacklist_outstanding_eq (led : Ledger) (u : Nat) :
    (blacklist_user_tokens led u).outstanding = led.outstanding := rfl

/-- Every outstanding token of the user is blacklisted after one call. -/
lemma blacklist_covers (led : Ledger) (u : Nat) :
    ∀ r ∈ led.outstanding, r.user = u →
      r.id ∈ (blacklist_user_tokens led u).blacklisted := by
  intro r hr hu
  show r.id ∈
    (led.outstanding.filter
      (fun r => r.user == u &&
        !((led.blacklisted.filter
          (fun tid => led.outstanding.any
            (fun q => q.id == tid && q.user == u))).contains r.id))).foldl
      (fun acc r => insertId acc r.id) led.blacklisted
  by_cases hbti :
      ((led.blacklisted.filter
        (fun tid => led.outstanding.any
          (fun q => q.id == tid && q.user == u))).contains r.id) = true
  · have hin : r.id ∈ led.blacklisted :=
      (List.mem_filter.mp (List.elem_iff.mp hbti)).1
    exact mem_foldl_insertId_of_mem hin
  · refine mem_foldl_insertId_of_mem_list (List.mem_filter.mpr ⟨hr, ?_⟩)
    have hc : ((led.blacklisted.filter
        (fun tid => led.outstanding.any
          (fun q => q.id == tid && q.user == u))).contains r.id) = false := by
      simpa using hbti
    rw [hc]
    simp [hu]

/-- Every blacklist row after the call was already there or references an
outstanding token of the user. -/
lemma blacklist_from (led : Ledger) (u : Nat) :
    ∀ tid ∈ (blacklist_user_tokens led u).blacklisted,
      tid ∈ led.blacklisted ∨
        ∃ r ∈ led.outstanding, r.user = u ∧ r.id = tid := by
  intro tid htid
  have h := mem_of_mem_foldl_insertId htid
  rcases h with h | ⟨r, hr, hra⟩
  · exact Or.inl h
  · have hpred := (List.mem_filter.mp hr).2
    have hu : r.user = u := by simpa using Bool.and_elim_left hpred
    exact Or.inr ⟨r, (List.mem_filter.mp hr).1, hu, hra⟩

/-- When the not-yet-blacklisted queryset is empty, the call leaves the
ledger untouched. -/
lemma blacklist_noop (led : Ledger) (u : Nat)
    (h : led.outstanding.filter
        (fun r => r.user == u &&
          !((led.blacklisted.filter
            (fun tid => led.outstanding.any
              (fun q => q.id == tid && q.user == u))).contains r.id)) = []) :
    blacklist_user_tokens led u = led := by
  show { led with
      blacklisted :=
        (led.outstanding.filter
          (fun r => r.user == u &&
            !((led.blacklisted.filter
              (fun tid => led.outstanding.any
                (fun q => q.id == tid && q.user == u))).contains r.id))).foldl
          (fun acc r => insertId acc r.id) led.blacklisted } = led
  rw [h]
  rfl

lemma blacklist_idem (led : Ledger) (u : Nat) :
    blacklist_user_tokens (blacklist_user_tokens led u) u =
      blacklist_user_tokens led u := by
  apply blacklist_noop
  refine List.filter_eq_nil_iff.mpr ?_
  intro r hr
  rw [blacklist_outstanding_eq] at hr
  by_cases hu : r.user = u
  · have hid : r.id ∈ (blacklist_user_tokens led u).blacklisted :=
      blacklist_covers led u r hr hu
    have hw : ((blacklist_user_tokens led u).outstanding.any
        (fun q => q.id == r.id && q.user == u)) = true := by
      refine List.any_eq_true.mpr ⟨r, ?_, by simp [hu]⟩
      rw [blacklist_outstanding_eq]
      exact hr
    have hbti : (((blacklist_user_tokens led u).blacklisted.filter
        (fun tid => (blacklist_user_tokens led u).outstanding.any
          (fun q => q.id == tid && q.user == u))).contains r.id) = true :=
      List.elem_iff.mpr (List.mem_filter.mpr ⟨hid, hw⟩)
    intro hpred
    have h2 := Bool.and_elim_right hpred
    rw [hbti] at h2
    simp at h2
  · intro hpred
    exact hu (by simpa using Bool.and_elim_left hpred)

/-- `refresh.blacklist()` leaves the blacklisted token covered by an
outstanding record carrying the token's `jti`. -/
lemma tokenBlacklist_spec (led : Ledger) (tok : Token) :
    ∃ r ∈ (tokenBlacklist led tok).outstanding,
      r.jti = tok.jti ∧ r.id ∈ (tokenBlacklist led tok).blacklisted := by
  unfold tokenBlacklist
  split
  · rename_i r0 hf
    have hjti : r0.jti = tok.jti := by simpa using List.find?_some hf
    have hmem := List.mem_of_find?_eq_some hf
    split
    · rename_i hc
      exact ⟨r0, hmem, hjti, List.elem_iff.mp hc⟩
    · exact ⟨r0, hmem, hjti, List.mem_append_right _ (by simp)⟩
  · show ∃ r ∈ led.outstanding ++
        [⟨led.nextTokenId, tok.user, tok.jti, tok.iat, tok.exp⟩],
      r.jti = tok.jti ∧
      r.id ∈ (if led.blacklisted.contains led.nextTokenId = true
        then led.blacklisted else led.blacklisted ++ [led.nextTokenId])
    by_cases hc : led.blacklisted.contains led.nextTokenId = true
    · rw [if_pos hc]
      exact ⟨⟨led.nextTokenId, tok.user, tok.jti, tok.iat, tok.exp⟩,
        List.mem_append_right _ (by simp), rfl, List.elem_iff.mp hc⟩
    · rw [if_neg hc]
      exact ⟨⟨led.nextTokenId, tok.user, tok.jti, tok.iat, tok.exp⟩,
        List.mem_append_right _ (by simp), rfl,
        List.mem_append_right _ (by simp)⟩

lemma inv_extend_outstanding {led : Ledger} {x : OutstandingRec}
    {bl : List Nat} (h : ∀ tid ∈ bl, ∃ r ∈ led.outstanding, r.id = tid) :
    ∀ tid ∈ bl, ∃ r ∈ led.outstanding ++ [x], r.id = tid := by
  intro tid htid
  obtain ⟨r, hr, hid⟩ := h tid htid
  exact ⟨r, List.mem_append_left _ hr, hid⟩

lemma tokenBlacklist_inv {led : Ledger} (tok : Token) (h : LedgerInv led) :
    LedgerInv (tokenBlacklist led tok) := by
  unfold tokenBlacklist
  split
  · rename_i r0 hf
    have hmem := List.mem_of_find?_eq_some hf
    split
    · exact h
    · intro tid htid
      rcases List.mem_append.mp htid with h1 | h1
      · exact h tid h1
      · simp at h1
        exact ⟨r0, hmem, h1.symm⟩
  · intro tid htid
    show ∃ r ∈ led.outstanding ++
      [⟨led.nextTokenId, tok.user, tok.jti, tok.iat, tok.exp⟩], r.id = tid
    have htid' : tid ∈ (if led.blacklisted.contains led.nextTokenId = true
        then led.blacklisted else led.blacklisted ++ [led.nextTokenId]) := htid
    split at htid'
    · exact inv_extend_outstanding h tid htid'
    · rcases List.mem_append.mp htid' with h1 | h1
      · exact inv_extend_outstanding h tid h1
      · simp at h1
        exact ⟨⟨led.nextTokenId, tok.user, tok.jti, tok.iat, tok.exp⟩,
          List.mem_append_right _ (by simp), h1.symm⟩

lemma tokenBlacklist_outstanding_mono {led : Ledger} (tok : Token) :
    ∀ r ∈ led.outstanding, r ∈ (tokenBlacklist led tok).outstanding := by
  intro r hr
  unfold tokenBlacklist
  split
  · split
    · exact hr
    · exact hr
  · exact List.mem_append_left _ hr

lemma ledgerStep_inv {led led' : Ledger} (hstep : LedgerStep led led')
    (h : LedgerInv led) : LedgerInv led' := by
  cases hstep with
  | issue user jti now exp =>
    intro tid htid
    obtain ⟨r, hr, hid⟩ := h tid htid
    exact ⟨r, List.mem_append_left _ hr, hid⟩
  | blacklistAll user =>
    intro tid htid
    rcases blacklist_from _ user tid htid with h1 | ⟨r, hr, -, hid⟩
    · obtain ⟨r, hr, hid⟩ := h tid h1
      exact ⟨r, hr, hid⟩
    · exact ⟨r, hr, hid⟩
  | rotate tok rot bl newJti now newExp =>
    unfold myTokenRefresh_validate
    split
    · intro tid htid
      have hinv1 : LedgerInv
          (if bl = true then tokenBlacklist led tok else led) := by
        split
        · exact tokenBlacklist_inv tok h
        · exact h
      exact inv_extend_outstanding hinv1 tid htid
    · exact h

lemma ledgerStep_outstanding_mono {led led' : Ledger}
    (hstep : LedgerStep led led') :
    ∀ r ∈ led.outstanding, r ∈ led'.outstanding := by
  cases hstep with
  | issue user jti now exp =>
    intro r hr
    exact List.mem_append_left _ hr
  | blacklistAll user =>
    intro r hr
    exact hr
  | rotate tok rot bl newJti now newExp =>
    intro r hr
    unfold myTokenRefresh_validate
    split
    · refine List.mem_append_left _ ?_
      split
      · exact tokenBlacklist_outstanding_mono tok r hr
      · exact hr
    · exact hr

/-! ## Claim theorems: token ledger -/

/-- C6: a refresh exchange with rotation enabled blacklists the old refresh
token (its `jti` stays covered by an outstanding record), returns the
rotated refresh token carrying the freshly generated `jti` alongside the
access grant for the same user, and creates an outstanding-ledger record for
the new `jti`, so the rotated token does not escape blacklist tracking. -/
theorem refresh_rotation_tracks (led : Ledger) (tok : Token) (newJti : String)
    (now newExp : Nat) (hfresh : newJti ≠ tok.jti) :
    ((myTokenRefresh_validate led tok true true newJti now newExp).2.refresh =
       some { user := tok.user, jti := newJti, exp := newExp, iat := now }) ∧
    ((myTokenRefresh_validate led tok true true newJti now newExp).2.accessUser =
       tok.user) ∧
    (∃ r ∈ (myTokenRefresh_validate led tok true true newJti now
          newExp).1.outstanding,
       r.jti = tok.jti ∧
       r.id ∈ (myTokenRefresh_validate led tok true true newJti now
          newExp).1.blacklisted) ∧
    (∃ r ∈ (myTokenRefresh_validate led tok true true newJti now
          newExp).1.outstanding,
       r.jti = newJti ∧ r.user = tok.user) ∧
    newJti ≠ tok.jti := by
  refine ⟨rfl, rfl, ?_, ?_, hfresh⟩
  · obtain ⟨r, hr, hjti, hbl⟩ := tokenBlacklist_spec led tok
    refine ⟨r, ?_, hjti, ?_⟩
    · show r ∈ (tokenBlacklist led tok).outstanding ++ _
      exact List.mem_append_left _ hr
    · exact hbl
  · refine ⟨⟨(tokenBlacklist led tok).nextTokenId, tok.user, newJti, now,
      newExp⟩, ?_, rfl, rfl⟩
    show _ ∈ (tokenBlacklist led tok).outstanding ++ _
    exact List.mem_append_right _ (by simp)

theorem refresh_rotation_tracks_witness :
    ((myTokenRefresh_validate wLedger ⟨7, "a", 10, 0⟩ true true "z" 5
        15).2.refresh = some ⟨7, "z", 15, 5⟩) ∧
    ((myTokenRefresh_validate wLedger ⟨7, "a", 10, 0⟩ true true "z" 5
        15).2.accessUser = 7) ∧
    (∃ r ∈ (myTokenRefresh_validate wLedger ⟨7, "a", 10, 0⟩ true true "z" 5
        15).1.outstanding,
      r.jti = "a" ∧
      r.id ∈ (myTokenRefresh_validate wLedger ⟨7, "a", 10, 0⟩ true true "z" 5
        15).1.blacklisted) ∧
    (∃ r ∈ (myTokenRefresh_validate wLedger ⟨7, "a", 10, 0⟩ true true "z" 5
        15).1.outstanding,
      r.jti = "z" ∧ r.user = 7) ∧
    ("z" : String) ≠ "a" :=
  refresh_rotation_tracks wLedger ⟨7, "a", 10, 0⟩ "z" 5 15 (by decide)

/-- C7: `blacklist_user_tokens` blacklists every outstanding token of the
user, only ever adds blacklist rows that reference the user's outstanding
tokens, is idempotent as a state transformer (the second call is a no-op),
and creates no duplicate blacklist rows. -/
theorem blacklist_all_idempotent (led : Ledger) (u : Nat) :
    (∀ r ∈ led.outstanding, r.user = u →
        r.id ∈ (blacklist_user_tokens led u).blacklisted) ∧
    (∀ tid ∈ (blacklist_user_tokens led u).blacklisted,
        tid ∈ led.blacklisted ∨
          ∃ r ∈ led.outstanding, r.user = u ∧ r.id = tid) ∧
    blacklist_user_tokens (blacklist_user_tokens led u) u =
      blacklist_user_tokens led u ∧
    (led.blacklisted.Nodup →
      (blacklist_user_tokens led u).blacklisted.Nodup) := by
  refine ⟨blacklist_covers led u, blacklist_from led u,
    blacklist_idem led u, ?_⟩
  intro h
  exact nodup_foldl_insertId h

theorem blacklist_all_idempotent_witness :
    (0 ∈ (blacklist_user_tokens wLedger 7).blacklisted) ∧
    (1 ∈ wLedger.blacklisted ∨
      ∃ r ∈ wLedger.outstanding, r.user = 7 ∧ r.id = 1) ∧
    blacklist_user_tokens (blacklist_user_tokens wLedger 7) 7 =
      blacklist_user_tokens wLedger 7 ∧
    (blacklist_user_tokens wLedger 7).blacklisted.Nodup :=
  ⟨(blacklist_all_idempotent wLedger 7).1 ⟨0, 7, "a", 0, 10⟩ (by decide) rfl,
   (blacklist_all_idempotent wLedger 7).2.1 1 (by decide),
   (blacklist_all_idempotent wLedger 7).2.2.1,
   (blacklist_all_idempotent wLedger 7).2.2.2 (by decide)⟩

/-- C8: every blacklist row references an outstanding record in every ledger
state reachable by the application's ledger operations (issue, blacklist-all
as used by password change, recovery and account deletion, and refresh
rotation); each operation preserves the invariant and never removes an
outstanding record. -/
theorem ledger_blacklisted_in_outstanding :
    (∀ led led', LedgerStep led led' → LedgerInv led → LedgerInv led') ∧
    (∀ led led', LedgerStep led led' →
       ∀ r ∈ led.outstanding, r ∈ led'.outstanding) ∧
    (∀ led, ReachableLedger led → LedgerInv led) := by
  refine ⟨fun led led' hs h => ledgerStep_inv hs h,
    fun led led' hs => ledgerStep_outstanding_mono hs, ?_⟩
  intro led hreach
  induction hreach with
  | refl =>
    intro tid htid
    simp [initialLedger] at htid
  | tail hsteps hstep ih =>
    exact ledgerStep_inv hstep ih

theorem ledger_blacklisted_in_outstanding_witness :
    LedgerInv (blacklist_user_tokens (issueToken initialLedger 1 "a" 0 5) 1) :=
  ledger_blacklisted_in_outstanding.2.2 _
    (Relation.ReflTransGen.tail
      (Relation.ReflTransGen.tail Relation.ReflTransGen.refl
        (LedgerStep.issue initialLedger 1 "a" 0 5))
      (LedgerStep.blacklistAll (issueToken initialLedger 1 "a" 0 5) 1))

/-! ## Claim theorems: broadcast notifier -/

/-- C9: a connection of the `"likes"` group receives the broadcast payload
exactly when its scope user id differs from the triggering user id; in
particular every anonymous connection always receives the stringified post
id and new like count. -/
theorem broadcast_excludes_trigger (conns : List Conn)
    (postId userId count : Nat) (conn : Conn) :
    (conn ∈ deliveredTo conns (broadcastEvent postId userId count) ↔
      conn ∈ conns ∧ conn.userId ≠ some userId) ∧
    (conn.userId = none → conn ∈ conns →
      like_message_send conn (broadcastEvent postId userId count) =
        some (toString postId, toString count)) := by
  constructor
  · constructor
    · intro h
      obtain ⟨h1, h2⟩ := List.mem_filter.mp h
      refine ⟨h1, ?_⟩
      cases hcu : conn.userId with
      | none => simp
      | some c =>
        simp only [like_message_send, broadcastEvent, hcu] at h2
        intro heq
        have hc : c = userId := by simpa using heq
        subst hc
        simp at h2
    · rintro ⟨h1, h2⟩
      refine List.mem_filter.mpr ⟨h1, ?_⟩
      cases hcu : conn.userId with
      | none => simp [like_message_send, broadcastEvent, hcu]
      | some c =>
        have hne : c ≠ userId := fun hcc => h2 (by rw [hcu, hcc])
        simp [like_message_send, broadcastEvent, hcu, hne]
  · intro hnone hmem
    simp [like_message_send, broadcastEvent, hnone]

theorem broadcast_excludes_trigger_witness :
    ((⟨some 8⟩ : Conn) ∈
        deliveredTo [⟨none⟩, ⟨some 7⟩, ⟨some 8⟩] (broadcastEvent 1 7 3) ↔
      (⟨some 8⟩ : Conn) ∈ ([⟨none⟩, ⟨some 7⟩, ⟨some 8⟩] : List Conn) ∧
        (some 8 : Option Nat) ≠ some 7) ∧
    like_message_send ⟨none⟩ (broadcastEvent 1 7 3) =
      some (toString (1 : Nat), toString (3 : Nat)) :=
  ⟨(broadcast_excludes_trigger [⟨none⟩, ⟨some 7⟩, ⟨some 8⟩] 1 7 3 ⟨some 8⟩).1,
   (broadcast_excludes_trigger [⟨none⟩, ⟨some 7⟩, ⟨some 8⟩] 1 7 3 ⟨none⟩).2
     rfl (by simp)⟩

end Postways
